import Mathlib

/-!
Verification of the payment core of `src/js/script.js` (Little Roses donation
page): the amount selector (`initPaymentAmount`, script.js:348-377) and the
payment confirmation poller (`verifyPayment`, script.js:383-455), together
with the configuration constants (`PAYMENT_CONFIG`, script.js:301-309) and the
module-level mutable `currentAmount` (script.js:314).

The embedding is shallow: the JavaScript globals become explicit state passing
(`PageState`), the asynchronous polling loop becomes a structurally recursive
function instrumented with request and delay counters, and the browser
`fetch`/JSON layer becomes an oracle `Nat → FeedResponse` giving the outcome
of each successive request.  All amounts are exact integers (`Int`), matching
the integer comparisons performed by the code.
-/

/-- JavaScript decimal digit value, as consumed by `parseInt`. -/
def digitVal (c : Char) : Option Nat :=
  if c.isDigit then some (c.toNat - 48) else none

/-- JavaScript hexadecimal digit value, as consumed by `parseInt` after an
`0x`/`0X` radix marker. -/
def hexVal (c : Char) : Option Nat :=
  if c.isDigit then some (c.toNat - 48)
  else if 'a' ≤ c && c ≤ 'f' then some (c.toNat - 87)
  else if 'A' ≤ c && c ≤ 'F' then some (c.toNat - 55)
  else none

/-- Parse the longest prefix of digits recognised by `val`, with the given
base; `none` when there is no digit at all (JavaScript `NaN`). -/
def parseDigitRun (base : Nat) (val : Char → Option Nat) (cs : List Char) : Option Nat :=
  let ds := cs.takeWhile (fun c => (val c).isSome)
  if ds.isEmpty then none
  else some (ds.foldl (fun acc c => acc * base + (val c).getD 0) 0)

/-- ECMAScript `parseInt(string)` with no explicit radix, as called at
script.js:361 and script.js:373: skip leading whitespace, read an optional
sign, then read hexadecimal after a `0x`/`0X` prefix and the longest decimal
digit run otherwise; `none` models the `NaN` result. -/
def parseIntJs (s : String) : Option Int :=
  let cs := s.data.dropWhile Char.isWhitespace
  let signed : Int × List Char :=
    match cs with
    | '-' :: rest => (-1, rest)
    | '+' :: rest => (1, rest)
    | _ => (1, cs)
  match signed.2 with
  | '0' :: 'x' :: rest => (parseDigitRun 16 hexVal rest).map (fun n => signed.1 * n)
  | '0' :: 'X' :: rest => (parseDigitRun 16 hexVal rest).map (fun n => signed.1 * n)
  | _ => (parseDigitRun 10 digitVal signed.2).map (fun n => signed.1 * n)

/-- Initial value of the module-level `let currentAmount = 0`
(script.js:314). -/
def currentAmount : Int := 0

/-- The custom-amount input handler (script.js:370-376): the new value of
`currentAmount` after `input` fires with the given field text.  The source is
`const val = parseInt(e.target.value); currentAmount = (!isNaN(val) && val > 0) ? val : 0;`. -/
def setCustomAmount (value : String) : Int :=
  match parseIntJs value with
  | some val => if 0 < val then val else 0
  | none => 0

/-- The preset-button click handler (script.js:356-366): the new value of
`currentAmount` given the button's `data-amount` attribute (`none` models a
missing attribute, whose `getAttribute` result `null` makes `parseInt`
return `NaN`).  The source updates only when `!isNaN(amount) && amount > 0`. -/
def selectPreset (cur : Int) (dataAmount : Option String) : Int :=
  match dataAmount with
  | none => cur
  | some s =>
    match parseIntJs s with
    | some amount => if 0 < amount then amount else cur
    | none => cur

/-- One user event touching the selector state (script.js:348-377). -/
inductive AmountEvent where
  | presetClick (dataAmount : Option String)
  | customInput (value : String)
deriving DecidableEq

/-- Effect of one event on `currentAmount`. -/
def applyAmountEvent (cur : Int) : AmountEvent → Int
  | .presetClick dataAmount => selectPreset cur dataAmount
  | .customInput value => setCustomAmount value

/-- The value of `currentAmount` after a sequence of selector events starting
from page load. -/
def runAmountEvents (evs : List AmountEvent) : Int :=
  evs.foldl applyAmountEvent currentAmount

/-- The amount-parse step of the custom input as the specification words it:
a plain base-10 integer parse (optional sign, longest decimal digit prefix,
no hexadecimal radix prefix), with failure or a non-positive result mapped to
the unset target 0. -/
def specParseBase10 (s : String) : Option Int :=
  let cs := s.data.dropWhile Char.isWhitespace
  let signed : Int × List Char :=
    match cs with
    | '-' :: rest => (-1, rest)
    | '+' :: rest => (1, rest)
    | _ => (1, cs)
  (parseDigitRun 10 digitVal signed.2).map (fun n => signed.1 * n)

/-- The target the specification's words assign to a custom input string. -/
def specCustomTarget (s : String) : Int :=
  match specParseBase10 s with
  | some val => if 0 < val then val else 0
  | none => 0

/-- Payment configuration constants (script.js:301-309). -/
structure PaymentConfig where
  BANK_ID : String
  ACCOUNT_NO : String
  ACCOUNT_NAME : String
  TEMPLATE : String
  GAS_URL : String
  MAX_ATTEMPTS : Nat
  RETRY_DELAY : Nat
deriving DecidableEq

/-- The concrete `PAYMENT_CONFIG` object of script.js:301-309; `RETRY_DELAY`
is in milliseconds. -/
def PAYMENT_CONFIG : PaymentConfig where
  BANK_ID := "970436"
  ACCOUNT_NO := "1041228495"
  ACCOUNT_NAME := "Nguyen Ho Sy Phu"
  TEMPLATE := "compact2"
  GAS_URL := "https://script.google.com/macros/s/AKfycbzok19KmgsO1Nms0YHsiNWw0VHrr4ezrRtunXcoat-pIrK8dV3zNNHoQqK7VCiticcP/exec"
  MAX_ATTEMPTS := 5
  RETRY_DELAY := 2000

/-- One amount field of a feed row, as seen by the matching lambda at
script.js:418-421.  `absent` is JavaScript `undefined` (falsy); a numeric
field is falsy exactly when it is 0; a string field is falsy exactly when it
is empty. -/
inductive TxField where
  | absent
  | num (v : Int)
  | str (s : String)
deriving DecidableEq

/-- One row of the transaction feed.  The code reads the two amount field
names `tx.SoTien` and `tx.amount`; rows are modelled as objects carrying
each of those two properties. -/
structure TransactionRecord where
  SoTien : TxField
  amount : TxField
deriving DecidableEq

/-- JavaScript truthiness of a field value, as tested by the `||` chain
`tx.SoTien || tx.amount || 0` (script.js:419). -/
def fieldTruthy : TxField → Bool
  | .absent => false
  | .num v => v != 0
  | .str s => s != ""

/-- The result of `parseInt` applied to a field value chosen by the `||`
chain: an already-numeric field stringifies back to itself, a string field
goes through `parseIntJs`, and `absent` is never chosen. -/
def parseIntField : TxField → Option Int
  | .absent => none
  | .num v => some v
  | .str s => parseIntJs s

/-- The value `parseInt(tx.SoTien || tx.amount || 0)` of script.js:419;
`none` models `NaN`. -/
def txParsedAmount (tx : TransactionRecord) : Option Int :=
  if fieldTruthy tx.SoTien then parseIntField tx.SoTien
  else if fieldTruthy tx.amount then parseIntField tx.amount
  else some 0

/-- The predicate of the `find` callback at script.js:418-421:
`parseInt(tx.SoTien || tx.amount || 0) === currentAmount`.  A `NaN` parse
(`none`) compares unequal to everything. -/
def txMatches (amount : Int) (tx : TransactionRecord) : Bool :=
  match txParsedAmount tx with
  | some v => v == amount
  | none => false

/-- One attempt's fetch outcome, split by the code paths of
script.js:409-426.  Every request also carries a cache-busting `?t=` query
parameter (script.js:409), which does not influence control flow and is not
modelled. -/
inductive FeedResponse where
  /-- `fetch` itself rejects at the transport level. -/
  | networkError
  /-- A response arrives with `response.ok = false`: the code throws
  (script.js:411-413). -/
  | httpError (status : Nat)
  /-- `response.ok` holds but `response.json()` rejects: the body is not
  JSON. -/
  | invalidJson
  /-- `response.ok` holds and the body parses, but evaluating
  `data.data?.find(...)` throws a `TypeError`: the body is `null`, or its
  `data` field is a non-null value with no callable `find`. -/
  | badDataField
  /-- `response.ok` holds, the body parses, and `data.data` is `undefined`
  or `null`: the optional chain yields `undefined` and the attempt simply
  finds no transaction. -/
  | missingDataField
  /-- `response.ok` holds and `data.data` is an array of rows. -/
  | records (txs : List TransactionRecord)
deriving DecidableEq

/-- Processing of one response inside the loop body (script.js:409-426):
`none` means the attempt threw (caught at script.js:448), `some r` means the
scan completed with `r` the result of `data.data?.find(...)` — `some tx` a
matching row, `none` no match (including the `undefined` optional-chain
result for a missing `data` field). -/
def scanResponse (amount : Int) : FeedResponse → Option (Option TransactionRecord)
  | .networkError => none
  | .httpError _ => none
  | .invalidJson => none
  | .badDataField => none
  | .missingDataField => some none
  | .records txs => some (txs.find? (fun tx => txMatches amount tx))

/-- How the `try` block of `verifyPayment` ends: `paid` is `isPaid = true`,
`notPaid` is loop exit with `isPaid = false`, `threw` is an exception caught
at script.js:448. -/
inductive LoopExit where
  | paid
  | notPaid
  | threw
deriving DecidableEq

/-- Result of the polling loop, instrumented with the number of `fetch`
calls issued and the number of `RETRY_DELAY` waits performed. -/
structure LoopResult where
  exit : LoopExit
  requests : Nat
  delays : Nat
deriving DecidableEq

/-- The `while (attempts < PAYMENT_CONFIG.MAX_ATTEMPTS && !isPaid)` loop of
script.js:408-434, as a structural recursion on
`remaining = MAX_ATTEMPTS - attempts`.  At the top of each iteration the
source's `attempts` counter equals the number of requests issued so far, so
the feed oracle is consulted at index `requests`.  The source's entry guard
`attempts < MAX_ATTEMPTS` is `0 < remaining + 1` (always true in the step
case, and false exactly in the `0` case), and the post-increment guard
`attempts < MAX_ATTEMPTS` deciding the `RETRY_DELAY` wait (script.js:431)
is `0 < remaining`. -/
def pollLoop (amount : Int) (feed : Nat → FeedResponse) :
    Nat → Nat → Nat → LoopResult
  | 0, requests, delays => ⟨.notPaid, requests, delays⟩
  | remaining + 1, requests, delays =>
    match scanResponse amount (feed requests) with
    | none => ⟨.threw, requests + 1, delays⟩
    | some (some _tx) => ⟨.paid, requests + 1, delays⟩
    | some none =>
      if 0 < remaining then
        pollLoop amount feed remaining (requests + 1) (delays + 1)
      else ⟨.notPaid, requests + 1, delays⟩

/-- Digit grouping of `Intl.NumberFormat("vi-VN")`: thousands separated by
dots.  Input and output are digit lists with the least significant digit
first. -/
def groupThousands : List Char → List Char
  | a :: b :: c :: d :: rest => a :: b :: c :: '.' :: groupThousands (d :: rest)
  | cs => cs

/-- `formatPrice` (script.js:62-64): format an integer with the `vi-VN`
locale's thousands grouping. -/
def formatPrice (value : Int) : String :=
  if value < 0 then
    "-" ++ String.mk (groupThousands (Nat.repr value.natAbs).data.reverse).reverse
  else
    String.mk (groupThousands (Nat.repr value.toNat).data.reverse).reverse

/-- The page state read and written by the payment core: the module global
`currentAmount` (script.js:314) and the presentation surface touched by
`verifyPayment` — `#payment-status` text and class, and the `#btn-confirm`
disabled flag, label and opacity (script.js:392-453).  The two elements are
modelled as present (the early return at script.js:395 when either is
missing from the page is outside this model). -/
structure PageState where
  currentAmount : Int
  statusText : String
  statusClass : String
  btnDisabled : Bool
  btnLabel : String
  btnOpacity : String
deriving DecidableEq

/-- How one `verifyPayment` call ends, including the validation rejection
(script.js:387-390), which precedes any session. -/
inductive VerifyOutcome where
  | ValidationError
  | Confirmed
  | Exhausted
  | TransportFailed
deriving DecidableEq

/-- Observable result of one `verifyPayment` call: its outcome, the number
of feed requests issued, the number of inter-attempt delays awaited, the
`alert` message shown if any, and the page state after the call. -/
structure VerifyResult where
  outcome : VerifyOutcome
  requests : Nat
  delays : Nat
  alert : Option String
  state : PageState
deriving DecidableEq

/-- `verifyPayment` (script.js:383-455) on a page state and a feed oracle.
The validation guard `currentAmount <= 0` aborts with an alert before any
request or UI write; otherwise the UI enters the loading presentation
(script.js:398-402), the polling loop runs, and the terminal presentation is
written per script.js:437-453.  Note that the success branch leaves the
button disabled and the catch branch restores `disabled` and `opacity` but
not the button label. -/
def verifyPayment (s : PageState) (feed : Nat → FeedResponse) : VerifyResult :=
  if s.currentAmount ≤ 0 then
    { outcome := .ValidationError, requests := 0, delays := 0,
      alert := some "Vui lòng chọn hoặc nhập số tiền!", state := s }
  else
    let loading : PageState :=
      { s with statusText := "Đang kết nối ngân hàng...",
               statusClass := "status-text loading",
               btnDisabled := true,
               btnLabel := "Đang kiểm tra...",
               btnOpacity := "0.7" }
    match pollLoop s.currentAmount feed PAYMENT_CONFIG.MAX_ATTEMPTS 0 0 with
    | ⟨.paid, reqs, dels⟩ =>
      { outcome := .Confirmed, requests := reqs, delays := dels, alert := none,
        state := { loading with
          statusText := "Thành công! Cảm ơn bạn đã ủng hộ "
            ++ formatPrice s.currentAmount ++ " đ.",
          statusClass := "status-text success",
          btnLabel := "Đã hoàn thành" } }
    | ⟨.notPaid, reqs, dels⟩ =>
      { outcome := .Exhausted, requests := reqs, delays := dels, alert := none,
        state := { loading with
          statusText := "Chưa nhận được tiền. Vui lòng kiểm tra lại.",
          statusClass := "status-text error",
          btnDisabled := false,
          btnLabel := "Xác Nhận Lại",
          btnOpacity := "1" } }
    | ⟨.threw, reqs, dels⟩ =>
      { outcome := .TransportFailed, requests := reqs, delays := dels, alert := none,
        state := { loading with
          statusText := "Lỗi kết nối. Vui lòng thử lại sau.",
          statusClass := "status-text error",
          btnDisabled := false,
          btnOpacity := "1" } }

/-- One-step unfolding of the loop body, matching script.js:408-434. -/
lemma pollLoop_succ (a : Int) (feed : Nat → FeedResponse) (r req del : Nat) :
    pollLoop a feed (r + 1) req del =
      match scanResponse a (feed req) with
      | none => ⟨.threw, req + 1, del⟩
      | some (some _tx) => ⟨.paid, req + 1, del⟩
      | some none =>
        if 0 < r then pollLoop a feed r (req + 1) (del + 1)
        else ⟨.notPaid, req + 1, del⟩ := rfl

/-- A response whose scan completes without finding any matching row just
advances the loop: `k` such responses in a row advance the counters by `k`. -/
lemma pollLoop_advance (a : Int) (feed : Nat → FeedResponse) :
    ∀ (k d req del : Nat),
      (∀ j, j < k → scanResponse a (feed (req + j)) = some none) →
      pollLoop a feed (k + (d + 1)) req del = pollLoop a feed (d + 1) (req + k) (del + k) := by
  intro k
  induction k with
  | zero => intro d req del _; simp
  | succ k ih =>
    intro d req del hnm
    have h0 : scanResponse a (feed req) = some none := by
      simpa using hnm 0 (Nat.succ_pos k)
    have hstep : k + 1 + (d + 1) = (k + (d + 1)) + 1 := by omega
    rw [hstep, pollLoop_succ]
    simp only [h0]
    rw [if_pos (by omega)]
    rw [ih d (req + 1) (del + 1) (fun j hj => by
      have hmem := hnm (j + 1) (by omega)
      have harith : req + (j + 1) = req + 1 + j := by omega
      rwa [harith] at hmem)]
    have e1 : req + 1 + k = req + (k + 1) := by omega
    have e2 : del + 1 + k = del + (k + 1) := by omega
    rw [e1, e2]

/-- A matching row on the current attempt ends the loop as paid, issuing one
more request and no further delay. -/
lemma pollLoop_paid (a : Int) (feed : Nat → FeedResponse) (req del r : Nat)
    (tx : TransactionRecord) (h : scanResponse a (feed req) = some (some tx)) :
    pollLoop a feed (r + 1) req del = ⟨.paid, req + 1, del⟩ := by
  simp [pollLoop, h]

/-- A throwing attempt (transport failure, non-2xx status, unparseable body,
or unusable data field) ends the loop at once. -/
lemma pollLoop_threw (a : Int) (feed : Nat → FeedResponse) (req del r : Nat)
    (h : scanResponse a (feed req) = none) :
    pollLoop a feed (r + 1) req del = ⟨.threw, req + 1, del⟩ := by
  simp [pollLoop, h]

/-- A no-match scan on the final attempt exits the loop unpaid without a
further delay. -/
lemma pollLoop_exhaust (a : Int) (feed : Nat → FeedResponse) (req del : Nat)
    (h : scanResponse a (feed req) = some none) :
    pollLoop a feed (0 + 1) req del = ⟨.notPaid, req + 1, del⟩ := by
  simp [pollLoop, h]

/-- The loop never issues more requests than it has fuel for. -/
lemma pollLoop_requests_le (a : Int) (feed : Nat → FeedResponse) :
    ∀ (r req del : Nat), (pollLoop a feed r req del).requests ≤ req + r := by
  intro r
  induction r with
  | zero => intro req del; simp [pollLoop]
  | succ r ih =>
    intro req del
    rw [pollLoop_succ]
    cases hsc : scanResponse a (feed req) with
    | none => simp [hsc]
    | some o =>
      cases o with
      | some tx => simp [hsc]
      | none =>
        simp only [hsc]
        split
        · have := ih (req + 1) (del + 1)
          omega
        · simp

/-- A record list with no matching row scans to a completed, empty find. -/
lemma scanResponse_noMatch (a : Int) (txs : List TransactionRecord)
    (h : ∀ tx ∈ txs, txMatches a tx = false) :
    scanResponse a (.records txs) = some none := by
  simp only [scanResponse, Option.some.injEq]
  rw [List.find?_eq_none]
  intro tx htx
  simp [h tx htx]

/-- A record list with some matching row scans to a completed, successful
find. -/
lemma scanResponse_someMatch (a : Int) (txs : List TransactionRecord)
    (h : ∃ tx ∈ txs, txMatches a tx = true) :
    ∃ tx, scanResponse a (.records txs) = some (some tx) := by
  rcases h with ⟨tx, htx, hp⟩
  cases hfind : txs.find? (fun tx => txMatches a tx) with
  | none =>
    rw [List.find?_eq_none] at hfind
    exact absurd hp (by simpa using hfind tx htx)
  | some tx' => exact ⟨tx', by simp [scanResponse, hfind]⟩

/-- Composite run: `i` completed no-match attempts followed by a matching
attempt `i` give Confirmed with `i + 1` requests and `i` delays. -/
lemma verifyPayment_pollPaid (s : PageState) (feed : Nat → FeedResponse) (i : Nat)
    (h : 0 < s.currentAmount) (hi : i < 5)
    (hsc : ∀ j, j < i → scanResponse s.currentAmount (feed j) = some none)
    (tx : TransactionRecord)
    (hscf : scanResponse s.currentAmount (feed i) = some (some tx)) :
    (verifyPayment s feed).outcome = .Confirmed
    ∧ (verifyPayment s feed).requests = i + 1
    ∧ (verifyPayment s feed).delays = i := by
  have hns : ¬ s.currentAmount ≤ 0 := not_le.mpr h
  have hadv := pollLoop_advance s.currentAmount feed i (4 - i) 0 0
    (fun j hj => by simpa using hsc j hj)
  have hp : pollLoop s.currentAmount feed 5 0 0 = ⟨.paid, i + 1, i⟩ := by
    have h5 : (5 : Nat) = i + ((4 - i) + 1) := by omega
    rw [h5, hadv]
    simpa using pollLoop_paid s.currentAmount feed i i (4 - i) tx hscf
  simp [verifyPayment, hns, hp, PAYMENT_CONFIG]

/-- Composite run: `i` completed no-match attempts followed by a throwing
attempt `i` give TransportFailed with `i + 1` requests and `i` delays. -/
lemma verifyPayment_pollThrew (s : PageState) (feed : Nat → FeedResponse) (i : Nat)
    (h : 0 < s.currentAmount) (hi : i < 5)
    (hsc : ∀ j, j < i → scanResponse s.currentAmount (feed j) = some none)
    (hscf : scanResponse s.currentAmount (feed i) = none) :
    (verifyPayment s feed).outcome = .TransportFailed
    ∧ (verifyPayment s feed).requests = i + 1
    ∧ (verifyPayment s feed).delays = i := by
  have hns : ¬ s.currentAmount ≤ 0 := not_le.mpr h
  have hadv := pollLoop_advance s.currentAmount feed i (4 - i) 0 0
    (fun j hj => by simpa using hsc j hj)
  have hp : pollLoop s.currentAmount feed 5 0 0 = ⟨.threw, i + 1, i⟩ := by
    have h5 : (5 : Nat) = i + ((4 - i) + 1) := by omega
    rw [h5, hadv]
    simpa using pollLoop_threw s.currentAmount feed i i (4 - i) hscf
  simp [verifyPayment, hns, hp, PAYMENT_CONFIG]

/-- Composite run: five completed no-match attempts exhaust the budget with
exactly 5 requests and 4 inter-attempt delays. -/
lemma verifyPayment_pollExhausted (s : PageState) (feed : Nat → FeedResponse)
    (h : 0 < s.currentAmount)
    (hsc : ∀ j, j < 5 → scanResponse s.currentAmount (feed j) = some none) :
    (verifyPayment s feed).outcome = .Exhausted
    ∧ (verifyPayment s feed).requests = 5
    ∧ (verifyPayment s feed).delays = 4 := by
  have hns : ¬ s.currentAmount ≤ 0 := not_le.mpr h
  have hadv := pollLoop_advance s.currentAmount feed 4 0 0 0
    (fun j hj => by simpa using hsc j (by omega))
  have hp : pollLoop s.currentAmount feed 5 0 0 = ⟨.notPaid, 5, 4⟩ := by
    have h5 : (5 : Nat) = 4 + (0 + 1) := by norm_num
    rw [h5, hadv]
    simpa using pollLoop_exhaust s.currentAmount feed 4 4 (hsc 4 (by norm_num))
  simp [verifyPayment, hns, hp, PAYMENT_CONFIG]

/-- A record-list response with no matching row, packaged the way the claims
hypothesise the feed. -/
lemma scanResponse_of_records (a : Int) (feed : Nat → FeedResponse) (j : Nat)
    (h : ∃ txs, feed j = .records txs ∧ ∀ tx ∈ txs, txMatches a tx = false) :
    scanResponse a (feed j) = some none := by
  obtain ⟨txs, hfj, hnm⟩ := h
  rw [hfj]
  exact scanResponse_noMatch a txs hnm

/-- C1: for a target amount a > 0 and a feed whose responses contain no
record matching a on the first two attempts and a matching record on the
third, `verifyPayment` issues exactly 3 feed requests, waits exactly 2
inter-attempt delays of `RETRY_DELAY = 2000` ms, and terminates with outcome
Confirmed. -/
theorem claimC1 (s : PageState) (feed : Nat → FeedResponse)
    (txs0 txs1 txs2 : List TransactionRecord)
    (h : 0 < s.currentAmount)
    (h0 : feed 0 = .records txs0) (h1 : feed 1 = .records txs1)
    (h2 : feed 2 = .records txs2)
    (hn0 : ∀ tx ∈ txs0, txMatches s.currentAmount tx = false)
    (hn1 : ∀ tx ∈ txs1, txMatches s.currentAmount tx = false)
    (hm : ∃ tx ∈ txs2, txMatches s.currentAmount tx = true) :
    (verifyPayment s feed).outcome = .Confirmed
    ∧ (verifyPayment s feed).requests = 3
    ∧ (verifyPayment s feed).delays = 2
    ∧ PAYMENT_CONFIG.RETRY_DELAY = 2000 := by
  obtain ⟨tx, hscan2⟩ := scanResponse_someMatch s.currentAmount txs2 hm
  have hsc : ∀ j, j < 2 → scanResponse s.currentAmount (feed j) = some none := by
    intro j hj
    interval_cases j
    · rw [h0]; exact scanResponse_noMatch s.currentAmount txs0 hn0
    · rw [h1]; exact scanResponse_noMatch s.currentAmount txs1 hn1
  have hmain := verifyPayment_pollPaid s feed 2 h (by norm_num) hsc tx
    (by rw [h2]; exact hscan2)
  exact ⟨hmain.1, hmain.2.1, hmain.2.2, rfl⟩

/-- Witness for C1 at a concrete page state and feed. -/
theorem claimC1_witness :
    0 < (100000 : Int)
    ∧ (verifyPayment ⟨100000, "", "", false, "Xác Nhận", "1"⟩
        (fun i => if i < 2 then .records []
                  else .records [⟨.num 100000, .absent⟩])).outcome = .Confirmed
    ∧ (verifyPayment ⟨100000, "", "", false, "Xác Nhận", "1"⟩
        (fun i => if i < 2 then .records []
                  else .records [⟨.num 100000, .absent⟩])).requests = 3
    ∧ (verifyPayment ⟨100000, "", "", false, "Xác Nhận", "1"⟩
        (fun i => if i < 2 then .records []
                  else .records [⟨.num 100000, .absent⟩])).delays = 2 :=
  have h := claimC1 ⟨100000, "", "", false, "Xác Nhận", "1"⟩
    (fun i => if i < 2 then .records [] else .records [⟨.num 100000, .absent⟩])
    [] [] [⟨.num 100000, .absent⟩]
    (by decide) rfl rfl rfl (by decide) (by decide) (by decide)
  ⟨by decide, h.1, h.2.1, h.2.2.1⟩

/-- C2: for every target amount a > 0, if the first five responses are
successful record lists none of which contains a matching record, then
`verifyPayment` issues exactly `MAX_ATTEMPTS = 5` feed requests and ends
Exhausted; moreover no execution ever issues more than `MAX_ATTEMPTS`
requests, and every execution with a > 0 returns exactly one of the three
terminal outcomes. -/
theorem claimC2 (s : PageState) (feed : Nat → FeedResponse)
    (h : 0 < s.currentAmount) :
    ((∀ i, i < 5 →
        ∃ txs, feed i = .records txs
          ∧ ∀ tx ∈ txs, txMatches s.currentAmount tx = false) →
      (verifyPayment s feed).outcome = .Exhausted
      ∧ (verifyPayment s feed).requests = 5)
    ∧ (verifyPayment s feed).requests ≤ PAYMENT_CONFIG.MAX_ATTEMPTS
    ∧ PAYMENT_CONFIG.MAX_ATTEMPTS = 5
    ∧ ((verifyPayment s feed).outcome = .Confirmed
        ∨ (verifyPayment s feed).outcome = .Exhausted
        ∨ (verifyPayment s feed).outcome = .TransportFailed) := by
  have hns : ¬ s.currentAmount ≤ 0 := not_le.mpr h
  refine ⟨?_, ?_, rfl, ?_⟩
  · intro hall
    have hex := verifyPayment_pollExhausted s feed h
      (fun j hj => scanResponse_of_records s.currentAmount feed j (hall j hj))
    exact ⟨hex.1, hex.2.1⟩
  · have hle := pollLoop_requests_le s.currentAmount feed 5 0 0
    rcases hp : pollLoop s.currentAmount feed 5 0 0 with ⟨e, reqs, dels⟩
    rw [hp] at hle
    simp only [LoopResult.requests] at hle
    cases e <;> simp [verifyPayment, hns, hp, PAYMENT_CONFIG] <;> omega
  · rcases hp : pollLoop s.currentAmount feed 5 0 0 with ⟨e, reqs, dels⟩
    cases e <;> simp [verifyPayment, hns, hp, PAYMENT_CONFIG]

/-- Witness for C2 at a concrete page state and an always-empty feed. -/
theorem claimC2_witness :
    0 < (77 : Int)
    ∧ (verifyPayment ⟨77, "", "", false, "Xác Nhận", "1"⟩
        (fun _ => .records [])).outcome = .Exhausted
    ∧ (verifyPayment ⟨77, "", "", false, "Xác Nhận", "1"⟩
        (fun _ => .records [])).requests = 5
    ∧ (verifyPayment ⟨77, "", "", false, "Xác Nhận", "1"⟩
        (fun _ => .records [])).requests ≤ PAYMENT_CONFIG.MAX_ATTEMPTS :=
  have h := claimC2 ⟨77, "", "", false, "Xác Nhận", "1"⟩
    (fun _ => FeedResponse.records []) (by decide)
  have hex := h.1 (fun i _ => ⟨[], rfl, by decide⟩)
  ⟨by decide, hex.1, hex.2, h.2.1⟩

/-- C3: with a non-positive target amount (including the unset value 0),
`verifyPayment` reports the validation alert immediately and returns with no
request, no delay and an unchanged page state. -/
theorem claimC3 (s : PageState) (feed : Nat → FeedResponse)
    (h : s.currentAmount ≤ 0) :
    verifyPayment s feed =
      { outcome := .ValidationError, requests := 0, delays := 0,
        alert := some "Vui lòng chọn hoặc nhập số tiền!", state := s } := by
  simp [verifyPayment, h]

/-- Witness for C3 at the unset amount 0. -/
theorem claimC3_witness :
    (0 : Int) ≤ 0
    ∧ verifyPayment ⟨0, "st", "sc", false, "Xác Nhận", "1"⟩ (fun _ => .networkError) =
      { outcome := .ValidationError, requests := 0, delays := 0,
        alert := some "Vui lòng chọn hoặc nhập số tiền!",
        state := ⟨0, "st", "sc", false, "Xác Nhận", "1"⟩ } :=
  ⟨by decide,
   claimC3 ⟨0, "st", "sc", false, "Xác Nhận", "1"⟩ (fun _ => .networkError) (by decide)⟩

/-- C4: if attempt i (0-indexed, after i completed no-match attempts) fails
at the transport level or returns a non-success HTTP status, `verifyPayment`
ends TransportFailed having issued exactly i + 1 requests — in particular a
first-response failure gives exactly 1 request and no retry. -/
theorem claimC4 (s : PageState) (feed : Nat → FeedResponse) (i : Nat)
    (h : 0 < s.currentAmount) (hi : i < 5)
    (hpre : ∀ j, j < i →
      ∃ txs, feed j = .records txs
        ∧ ∀ tx ∈ txs, txMatches s.currentAmount tx = false)
    (hfail : feed i = .networkError ∨ ∃ st, feed i = .httpError st) :
    (verifyPayment s feed).outcome = .TransportFailed
    ∧ (verifyPayment s feed).requests = i + 1 := by
  have hscf : scanResponse s.currentAmount (feed i) = none := by
    rcases hfail with hf | ⟨st, hf⟩ <;> rw [hf] <;> rfl
  have hmain := verifyPayment_pollThrew s feed i h hi
    (fun j hj => scanResponse_of_records s.currentAmount feed j (hpre j hj)) hscf
  exact ⟨hmain.1, hmain.2.1⟩

/-- Witness for C4: the very first response is HTTP 500. -/
theorem claimC4_witness :
    0 < (100 : Int)
    ∧ (verifyPayment ⟨100, "", "", false, "Xác Nhận", "1"⟩
        (fun _ => .httpError 500)).outcome = .TransportFailed
    ∧ (verifyPayment ⟨100, "", "", false, "Xác Nhận", "1"⟩
        (fun _ => .httpError 500)).requests = 1 :=
  have h := claimC4 ⟨100, "", "", false, "Xác Nhận", "1"⟩ (fun _ => .httpError 500) 0
    (by decide) (by decide) (fun j hj => absurd hj (by omega)) (Or.inr ⟨500, rfl⟩)
  ⟨by decide, h.1, h.2⟩

/-- C5: a record matches a target a > 0 exactly when the amount read from
either field name (`SoTien` or `amount`, defaulting to 0 when both are
absent) equals a as an integer: the scan succeeds iff some record matches,
a single present numeric field matches iff it equals a, the all-absent
record never matches a positive target, and 99999 does not match 100000. -/
theorem claimC5 (a : Int) (ha : 0 < a) :
    (∀ txs : List TransactionRecord,
        (txs.find? (fun tx => txMatches a tx)).isSome = true
          ↔ ∃ tx ∈ txs, txMatches a tx = true)
    ∧ (∀ v : Int, txMatches a ⟨.num v, .absent⟩ = true ↔ v = a)
    ∧ (∀ v : Int, txMatches a ⟨.absent, .num v⟩ = true ↔ v = a)
    ∧ txMatches a ⟨.absent, .absent⟩ = false
    ∧ txMatches 100000 ⟨.absent, .num 99999⟩ = false := by
  refine ⟨?_, ?_, ?_, ?_, by decide⟩
  · intro txs
    constructor
    · intro hs
      obtain ⟨tx, hfind⟩ := Option.isSome_iff_exists.mp hs
      exact ⟨tx, List.mem_of_find?_eq_some hfind, List.find?_some hfind⟩
    · rintro ⟨tx, htx, hp⟩
      cases hfind : txs.find? (fun tx => txMatches a tx) with
      | none =>
        rw [List.find?_eq_none] at hfind
        exact absurd hp (by simpa using hfind tx htx)
      | some tx' => simp [hfind]
  · intro v
    by_cases hv : v = 0
    · subst hv
      simp [txMatches, txParsedAmount, fieldTruthy, parseIntField]
    · simp [txMatches, txParsedAmount, fieldTruthy, parseIntField, hv]
  · intro v
    by_cases hv : v = 0
    · subst hv
      simp [txMatches, txParsedAmount, fieldTruthy, parseIntField]
    · simp [txMatches, txParsedAmount, fieldTruthy, parseIntField, hv]
  · simp [txMatches, txParsedAmount, fieldTruthy, parseIntField]
    omega

/-- Witness for C5 at the target 100000. -/
theorem claimC5_witness :
    0 < (100000 : Int)
    ∧ (([⟨.num 100000, .absent⟩] : List TransactionRecord).find?
        (fun tx => txMatches 100000 tx)).isSome = true
    ∧ txMatches 100000 ⟨.absent, .num 99999⟩ = false :=
  have h := claimC5 100000 (by decide)
  ⟨by decide,
   (h.1 [⟨.num 100000, .absent⟩]).mpr ⟨⟨.num 100000, .absent⟩, by decide, by decide⟩,
   h.2.2.2.2⟩

/-- The custom-amount handler never writes a negative target. -/
lemma setCustomAmount_nonneg (value : String) : 0 ≤ setCustomAmount value := by
  unfold setCustomAmount
  rcases hp : parseIntJs value with _ | w
  · simp
  · simp only []
    split
    · omega
    · omega

/-- C6 counterexample: on the input string 0x10 the handler stores 16 (the
JavaScript `parseInt` reads a hexadecimal numeral after an `0x` prefix),
whereas a base-10 parse as the claim words it yields the unset target 0. -/
theorem claimC6_counterexample :
    setCustomAmount "0x10" = 16
    ∧ specCustomTarget "0x10" = 0
    ∧ (16 : Int) ≠ 0 :=
  ⟨rfl, rfl, by decide⟩

/-- C6 (amended): `setCustomAmount` parses its input with JavaScript
`parseInt` semantics — leading whitespace, optional sign, hexadecimal after
an `0x`/`0X` prefix, otherwise the longest base-10 digit prefix; when the
parse fails or the result is non-positive the target becomes unset (0),
otherwise it becomes exactly the parsed value, and the stored target is
never negative. -/
theorem claimC6 (s : String) :
    (parseIntJs s = none → setCustomAmount s = 0)
    ∧ (∀ v : Int, parseIntJs s = some v → v ≤ 0 → setCustomAmount s = 0)
    ∧ (∀ v : Int, parseIntJs s = some v → 0 < v → setCustomAmount s = v)
    ∧ 0 ≤ setCustomAmount s := by
  refine ⟨?_, ?_, ?_, setCustomAmount_nonneg s⟩
  · intro h
    simp [setCustomAmount, h]
  · intro v hv hle
    simp only [setCustomAmount, hv]
    rw [if_neg (by omega)]
  · intro v hv hpos
    simp only [setCustomAmount, hv]
    rw [if_pos hpos]

/-- Witness for C6 on a failing parse and on a positive parse. -/
theorem claimC6_witness :
    parseIntJs "abc" = none
    ∧ setCustomAmount "abc" = 0
    ∧ parseIntJs "250000" = some 250000
    ∧ setCustomAmount "250000" = 250000 :=
  ⟨rfl, (claimC6 "abc").1 rfl, rfl,
   (claimC6 "250000").2.2.1 250000 rfl (by decide)⟩

/-- C7 counterexample: a response whose body is the well-formed object
lacking the expected `data` sequence field (modelled by `missingDataField`)
is malformed in the claim's sense, yet `verifyPayment` retries it and ends
Exhausted, not TransportFailed. -/
theorem claimC7_counterexample :
    (verifyPayment ⟨100000, "", "", false, "Xác Nhận", "1"⟩
      (fun _ => .missingDataField)).outcome = .Exhausted
    ∧ VerifyOutcome.Exhausted ≠ VerifyOutcome.TransportFailed :=
  ⟨rfl, by decide⟩

/-- C7 (amended): a response whose body fails to parse as JSON, or whose
data field exists but cannot be scanned (`invalidJson`, `badDataField`),
ends the call TransportFailed like a non-2xx response; but a well-formed
object merely lacking the data sequence field is treated as an attempt with
no matching record — it is retried and, repeated, exhausts the budget. -/
theorem claimC7 :
    (∀ (s : PageState) (feed : Nat → FeedResponse) (i : Nat),
        0 < s.currentAmount → i < 5 →
        (∀ j, j < i →
          ∃ txs, feed j = .records txs
            ∧ ∀ tx ∈ txs, txMatches s.currentAmount tx = false) →
        (feed i = .invalidJson ∨ feed i = .badDataField) →
        (verifyPayment s feed).outcome = .TransportFailed
        ∧ (verifyPayment s feed).requests = i + 1)
    ∧ (∀ (s : PageState) (feed : Nat → FeedResponse),
        0 < s.currentAmount →
        (∀ j, j < 5 → feed j = .missingDataField) →
        (verifyPayment s feed).outcome = .Exhausted
        ∧ (verifyPayment s feed).requests = 5) := by
  constructor
  · intro s feed i h hi hpre hbad
    have hscf : scanResponse s.currentAmount (feed i) = none := by
      rcases hbad with hf | hf <;> rw [hf] <;> rfl
    have hmain := verifyPayment_pollThrew s feed i h hi
      (fun j hj => scanResponse_of_records s.currentAmount feed j (hpre j hj)) hscf
    exact ⟨hmain.1, hmain.2.1⟩
  · intro s feed h hall
    have hmain := verifyPayment_pollExhausted s feed h
      (fun j hj => by rw [hall j hj]; rfl)
    exact ⟨hmain.1, hmain.2.1⟩

/-- Witness for C7: an unparseable first body fails at once; a feed of
bodies missing the data field exhausts the budget. -/
theorem claimC7_witness :
    (verifyPayment ⟨100, "", "", false, "Xác Nhận", "1"⟩
      (fun _ => .invalidJson)).outcome = .TransportFailed
    ∧ (verifyPayment ⟨100, "", "", false, "Xác Nhận", "1"⟩
        (fun _ => .invalidJson)).requests = 1
    ∧ (verifyPayment ⟨200, "", "", false, "Xác Nhận", "1"⟩
        (fun _ => .missingDataField)).outcome = .Exhausted
    ∧ (verifyPayment ⟨200, "", "", false, "Xác Nhận", "1"⟩
        (fun _ => .missingDataField)).requests = 5 :=
  have h1 := claimC7.1 ⟨100, "", "", false, "Xác Nhận", "1"⟩ (fun _ => .invalidJson) 0
    (by decide) (by decide) (fun j hj => absurd hj (by omega)) (Or.inl rfl)
  have h2 := claimC7.2 ⟨200, "", "", false, "Xác Nhận", "1"⟩ (fun _ => .missingDataField)
    (by decide) (fun j _ => rfl)
  ⟨h1.1, h1.2, h2.1, h2.2⟩

/-- C8 counterexample: after a transport failure the confirm control is
re-enabled but its label is left as the in-progress text, not restored. -/
theorem claimC8_counterexample :
    (verifyPayment ⟨100000, "", "status-text", false, "Xác Nhận", "1"⟩
      (fun _ => .networkError)).outcome = .TransportFailed
    ∧ (verifyPayment ⟨100000, "", "status-text", false, "Xác Nhận", "1"⟩
        (fun _ => .networkError)).state.btnLabel = "Đang kiểm tra..."
    ∧ "Đang kiểm tra..." ≠ "Xác Nhận" :=
  ⟨rfl, rfl, by decide⟩

/-- C8 (amended): every error outcome leaves the page recoverable — a
validation error leaves the page untouched, Exhausted re-enables the control
and sets the resubmit label, and TransportFailed re-enables the control and
restores its opacity but leaves the in-progress label in place. -/
theorem claimC8 (s : PageState) (feed : Nat → FeedResponse) :
    ((verifyPayment s feed).outcome = .ValidationError →
        (verifyPayment s feed).state = s)
    ∧ ((verifyPayment s feed).outcome = .Exhausted →
        (verifyPayment s feed).state.btnDisabled = false
        ∧ (verifyPayment s feed).state.btnLabel = "Xác Nhận Lại"
        ∧ (verifyPayment s feed).state.btnOpacity = "1")
    ∧ ((verifyPayment s feed).outcome = .TransportFailed →
        (verifyPayment s feed).state.btnDisabled = false
        ∧ (verifyPayment s feed).state.btnOpacity = "1"
        ∧ (verifyPayment s feed).state.btnLabel = "Đang kiểm tra...") := by
  by_cases hle : s.currentAmount ≤ 0
  · simp [verifyPayment, hle]
  · rcases hp : pollLoop s.currentAmount feed PAYMENT_CONFIG.MAX_ATTEMPTS 0 0
      with ⟨e, reqs, dels⟩
    cases e <;> simp [verifyPayment, hle, hp]

/-- Witness for C8 on an exhausted run. -/
theorem claimC8_witness :
    (verifyPayment ⟨300, "", "", false, "Xác Nhận", "1"⟩
      (fun _ => .records [])).outcome = .Exhausted
    ∧ (verifyPayment ⟨300, "", "", false, "Xác Nhận", "1"⟩
        (fun _ => .records [])).state.btnDisabled = false
    ∧ (verifyPayment ⟨300, "", "", false, "Xác Nhận", "1"⟩
        (fun _ => .records [])).state.btnLabel = "Xác Nhận Lại" :=
  have h := (claimC8 ⟨300, "", "", false, "Xác Nhận", "1"⟩ (fun _ => .records [])).2.1 rfl
  ⟨rfl, h.1, h.2.1⟩

/-- C9: `verifyPayment` never writes `currentAmount` — after any run, on any
feed, the target amount in the page state is unchanged. -/
theorem claimC9 (s : PageState) (feed : Nat → FeedResponse) :
    (verifyPayment s feed).state.currentAmount = s.currentAmount := by
  by_cases hle : s.currentAmount ≤ 0
  · simp [verifyPayment, hle]
  · rcases hp : pollLoop s.currentAmount feed PAYMENT_CONFIG.MAX_ATTEMPTS 0 0
      with ⟨e, reqs, dels⟩
    cases e <;> simp [verifyPayment, hle, hp]

/-- Every selector event keeps the stored amount non-negative. -/
lemma applyAmountEvent_nonneg (cur : Int) (ev : AmountEvent) (h : 0 ≤ cur) :
    0 ≤ applyAmountEvent cur ev := by
  cases ev with
  | presetClick dataAmount =>
    cases dataAmount with
    | none => simpa [applyAmountEvent, selectPreset] using h
    | some a =>
      simp only [applyAmountEvent, selectPreset]
      rcases hp : parseIntJs a with _ | v
      · simpa using h
      · simp only []
        split
        · omega
        · exact h
  | customInput value => exact setCustomAmount_nonneg value

/-- Folding selector events preserves non-negativity. -/
lemma foldlAmountEvents_nonneg :
    ∀ (evs : List AmountEvent) (cur : Int), 0 ≤ cur →
      0 ≤ evs.foldl applyAmountEvent cur := by
  intro evs
  induction evs with
  | nil => intro cur h; simpa using h
  | cons e es ih =>
    intro cur h
    simp only [List.foldl_cons]
    exact ih _ (applyAmountEvent_nonneg cur e h)

/-- C10: the stored target starts at 0, every selector operation maps a
non-negative amount to a non-negative amount (presets only overwrite with a
parsed value checked positive; custom input stores a checked positive value
or 0), so after any event sequence the amount is 0 or positive — never
negative, and integral by the `Int` model. -/
theorem claimC10 :
    currentAmount = 0
    ∧ (∀ (cur : Int) (ev : AmountEvent), 0 ≤ cur → 0 ≤ applyAmountEvent cur ev)
    ∧ (∀ evs : List AmountEvent, 0 ≤ runAmountEvents evs) :=
  ⟨rfl, applyAmountEvent_nonneg,
   fun evs => foldlAmountEvents_nonneg evs currentAmount (by norm_num [currentAmount])⟩

/-- Witness for C10 on concrete events. -/
theorem claimC10_witness :
    (0 : Int) ≤ 0
    ∧ 0 ≤ applyAmountEvent 0 (AmountEvent.customInput "abc")
    ∧ 0 ≤ runAmountEvents [AmountEvent.presetClick (some "50000"),
        AmountEvent.customInput "-3"] :=
  ⟨by decide,
   claimC10.2.1 0 (AmountEvent.customInput "abc") (by decide),
   claimC10.2.2 [AmountEvent.presetClick (some "50000"), AmountEvent.customInput "-3"]⟩
